import Mathlib

/-
Verification of the deferred-action token protocol implemented in
FunctionAutomate (PipelinePause issues a token backed by an Azure table
entity; PipelineRestart consumes it and triggers an ADF pipeline run).

The definitions below are a shallow embedding of the Python source:
  src/FunctionAutomate/utilities/utilities.py   (get_param)
  src/FunctionAutomate/PipelinePause/__init__.py  (token issuance)
  src/FunctionAutomate/PipelineRestart/__init__.py (token consumption)
Machine-level collaborators (the Azure table service, the data-factory
client, the file share) are modelled by explicit state and environment
records whose behaviour mirrors what the source relies on.
-/

/-- A Python value as it appears in request parameters, JSON bodies and
table entities: a string, an integer, a boolean or None. -/
inductive PValue where
  | str : String → PValue
  | int : Int → PValue
  | bool : Bool → PValue
  | null : PValue
deriving DecidableEq, Repr

/-- Python truthiness of a value: empty string, 0, False and None are falsy. -/
def PValue.truthy : PValue → Bool
  | PValue.str s => !(s == "")
  | PValue.int n => !(n == 0)
  | PValue.bool b => b
  | PValue.null => false

/-- Python truthiness of the result of a dict .get call: the Python test
uses not param, which is true when the parameter is absent or its value
is falsy. -/
def pyFalsy : Option PValue → Bool
  | Option.none => true
  | Option.some v => !v.truthy

/-- Python str() rendering of a value, used where the source interpolates
a value into an f-string. -/
def PValue.pyStr : PValue → String
  | PValue.str s => s
  | PValue.int n => toString n
  | PValue.bool b => if b then "True" else "False"
  | PValue.null => "None"

/-- Association lookup in a list of key-value pairs, first match wins;
models Python dict .get for the request dictionaries. -/
def lookupP : List (String × PValue) → String → Option PValue
  | [], _ => Option.none
  | (k0, v) :: rest, k => if k == k0 then Option.some v else lookupP rest k

/-- An incoming HTTP request: query-string parameters and, when the body
parses as JSON, the body dictionary. body = none models a request whose
get_json raises ValueError. -/
structure HttpRequest where
  params : List (String × PValue)
  body : Option (List (String × PValue))
deriving DecidableEq, Repr

/-- utilities.get_param: read the parameter from the query string; if that
is absent or falsy, fall back to the JSON body (None when the body fails
to parse); finally map any falsy result to None. -/
def get_param (request : HttpRequest) (param_name : String) : Option PValue :=
  let param := lookupP request.params param_name
  let param :=
    if pyFalsy param then
      match request.body with
      | Option.none => Option.none
      | Option.some req_body => lookupP req_body param_name
    else param
  if pyFalsy param then Option.none else param

/-- The body of an HTTP response. func.HttpResponse accepts only str,
bytes or bytearray bodies (its body setter raises TypeError for anything
else), and every response this program actually constructs carries a
string. -/
inductive Body where
  | str : String → Body
deriving DecidableEq, Repr

/-- An outgoing HTTP response as constructed by func.HttpResponse. -/
structure HttpResponse where
  body : Body
  status_code : Nat
  mimetype : String
deriving DecidableEq, Repr

/-- Outcome of running a decorated Azure-function entry point: either an
HttpResponse (normal return, or an HttpError unwrapped by the
exceptions_as_response decorator) or an unhandled exception that the
decorator re-raises (named by its Python type). -/
inductive RunOutcome where
  | resp : HttpResponse → RunOutcome
  | unhandled : String → RunOutcome
deriving DecidableEq, Repr

/-- A table entity as built by PipelinePause.prepare_pipeline_data. The
data field holds the json.dumps output for the context payload. -/
structure Entity where
  PartitionKey : String
  RowKey : String
  factory_name : PValue
  resource_group : PValue
  pipeline_name : PValue
  expiration_time : PValue
  data : String
  acted_upon : PValue
  web_path : PValue
  share_name : PValue
deriving DecidableEq, Repr

/-- A persisted entity. Timestamp and etag are the system properties the
Azure table service maintains on every entity: Timestamp records the time
of the last write to the entity and etag is the concurrency version; both
are assigned by the service on insert and reassigned on every successful
update (client-supplied values are ignored). The source never stores its
own creation time; PipelineRestart reads this service Timestamp for the
expiry check. -/
structure StoredEntity where
  entity : Entity
  Timestamp : Int
  etag : Nat
deriving DecidableEq, Repr

/-- The table, keyed by RowKey within the fixed PauseData partition. -/
abbrev TableStore := List (String × StoredEntity)

/-- Row lookup by key, first match wins. -/
def lookupRow : String → TableStore → Option StoredEntity
  | _, [] => Option.none
  | k, (k0, v) :: rest => if k == k0 then Option.some v else lookupRow k rest

/-- table_service.insert_entity: persist a fresh entity; the service
stamps Timestamp with the write time and a fresh version. Token RowKeys
are generated with 64 bytes of entropy, so insertion of an existing key
is not modelled. -/
def insert_entity (store : TableStore) (e : Entity) (now : Int) : TableStore :=
  (e.RowKey, { entity := e, Timestamp := now, etag := 0 }) :: store

/-- table_service.update_entity with the default unconditional if-match:
replace the entity stored under the same RowKey; the service refreshes
the system Timestamp to the write time and bumps the version. There is
no compare-and-set: the write succeeds regardless of intervening writes. -/
def update_entity (store : TableStore) (e : Entity) (now : Int) : TableStore :=
  store.map (fun p =>
    (p.1, if p.1 == e.RowKey then { entity := e, Timestamp := now, etag := p.2.etag + 1 } else p.2))

/-- PipelineRestart.check_if_expired: the record is expired when the
current time is strictly greater than the stored timestamp plus the
expiration window in seconds. The current time is injected (the source
reads the wall clock localized to UTC). -/
def check_if_expired (timestamp : Int) (expiration_time : Int) (now : Int) : Bool :=
  let expiration_timestamp := timestamp + expiration_time
  decide (now > expiration_timestamp)

/-- Coercion of an entity field to the integer expected by the timedelta
arithmetic in check_if_expired; Python booleans are integers, any other
type raises TypeError. -/
def PValue.asInt : PValue → Option Int
  | PValue.int n => Option.some n
  | PValue.bool b => Option.some (if b then 1 else 0)
  | _ => Option.none

/-- External collaborators of PipelineRestart: the data-factory client
(pipelines available in a factory, keyed by resource group and factory
name) and the file share serving the confirmation page (keyed by share
name and file path). -/
structure Env where
  pipelines : String → String → List String
  shareFile : String → String → String

/-- Atomic interactions with the outside world performed by a consume
call, in the order the source performs them. -/
inductive Event where
  | storeGet (row_key : String)
  | listPipelines (resource_group : String) (factory_name : String)
  | createRun (resource_group : String) (factory_name : String)
      (pipeline_name : String) (token : String)
  | storeUpdate (row_key : String)
  | fetchPage (share_name : String) (web_path : String)
deriving DecidableEq, Repr

/-- Does the event trigger the downstream action (the create_run call)? -/
def Event.isCreateRun : Event → Bool
  | Event.createRun _ _ _ _ => true
  | _ => false

/-- Is the event the store write that marks the token consumed? -/
def Event.isStoreUpdate : Event → Bool
  | Event.storeUpdate _ => true
  | _ => false

/-- Membership test of a pipeline-name value in the list of names
returned by list_by_factory; a non-string value equals no name. -/
def pvalueInStrings (v : PValue) (names : List String) : Bool :=
  match v with
  | PValue.str s => names.contains s
  | _ => false

/-- The message of the AzureMissingResourceHttpError the storage SDK
raises when get_entity finds no row; the source returns str(e) verbatim
in its response. -/
def missingResourceMsg : String := "The specified resource does not exist."

/-- The fixed rejection response returned when the record is already
acted upon or expired. -/
def invalidTokenResponse : HttpResponse :=
  { body := Body.str "Invalid token.", status_code := 500, mimetype := "text/plain" }

/-- Entity lookup keyed by the token extracted from the request; the
row is found only when the token is a string matching a RowKey. -/
def findEntity (store : TableStore) (token : Option PValue) : Option (String × StoredEntity) :=
  match token with
  | Option.some (PValue.str s) =>
      match lookupRow s store with
      | Option.some pp => Option.some (s, pp)
      | Option.none => Option.none
  | _ => Option.none

namespace PipelineRestart

/-- PipelineRestart.main, the consume operation: look the token up, check
acted_upon and expiry, and when both pass list the factory pipelines,
create the pipeline run, write the entity back with acted_upon = 1, and
return the confirmation page; otherwise return the fixed rejection. The
result carries the response (or unhandled exception), the post store and
the trace of external interactions in source order. -/
def main (env : Env) (store : TableStore) (now : Int) (req : HttpRequest) :
    RunOutcome × TableStore × List Event :=
  let token := get_param req "token"
  match findEntity store token with
  | Option.none =>
      (RunOutcome.resp
        { body := Body.str missingResourceMsg, status_code := 500, mimetype := "text/plain" },
       store, [])
  | Option.some (tok, pp) =>
      let ev0 := [Event.storeGet tok]
      let acted_upon := pp.entity.acted_upon
      match pp.entity.expiration_time.asInt with
      | Option.none => (RunOutcome.unhandled "TypeError", store, ev0)
      | Option.some ttl =>
        let has_expired := check_if_expired pp.Timestamp ttl now
        if !acted_upon.truthy && !has_expired then
          let rg := pp.entity.resource_group.pyStr
          let fn := pp.entity.factory_name.pyStr
          let ev1 := ev0 ++ [Event.listPipelines rg fn]
          let available_pipelines := env.pipelines rg fn
          if pvalueInStrings pp.entity.pipeline_name available_pipelines then
            let pn := pp.entity.pipeline_name.pyStr
            let ev2 := ev1 ++ [Event.createRun rg fn pn tok]
            let updated : Entity := { pp.entity with acted_upon := PValue.int 1 }
            let store1 := update_entity store updated now
            let ev3 := ev2 ++ [Event.storeUpdate updated.RowKey]
            let sn := pp.entity.share_name.pyStr
            let wp := pp.entity.web_path.pyStr
            let confirmation_site := env.shareFile sn wp
            let ev4 := ev3 ++ [Event.fetchPage sn wp]
            (RunOutcome.resp
              { body := Body.str confirmation_site, status_code := 200, mimetype := "text/html" },
             store1, ev4)
          else
            (RunOutcome.resp
              { body := Body.str (pp.entity.pipeline_name.pyStr ++ " is not available in the data factory."),
                status_code := 500, mimetype := "text/plain" },
             store, ev1)
        else
          (RunOutcome.resp invalidTokenResponse, store, ev0)

end PipelineRestart

namespace PipelinePause

/-- The four mandatory pipeline parameters extracted from the request. -/
structure PipelineParams where
  factory_name : PValue
  resource_group : PValue
  pipeline_name : PValue
  expiration_time : PValue
deriving DecidableEq, Repr

/-- The two mandatory notification web parameters. -/
structure WebParams where
  web_path : PValue
  share_name : PValue
deriving DecidableEq, Repr

/-- PipelinePause.get_pipeline_params: extract the four parameters with
get_param; no validation beyond a None check is performed on the values.
When any parameter is None the source intends to raise an HttpError, but
it binds msg to a parenthesized string with a trailing comma — a Python
1-tuple — and passes that tuple to func.HttpResponse, whose body setter
accepts only str, bytes or bytearray and raises TypeError before the
HttpError is constructed. The TypeError propagates out of this function,
modelled as the error branch carrying the exception's type name. -/
def get_pipeline_params (req : HttpRequest) : Except String PipelineParams :=
  let fn := get_param req "factory_name"
  let rg := get_param req "resource_group"
  let pn := get_param req "pipeline_name"
  let et := get_param req "expiration_time"
  if fn = Option.none ∨ rg = Option.none ∨ pn = Option.none ∨ et = Option.none then
    Except.error "TypeError"
  else
    Except.ok
      { factory_name := fn.getD PValue.null, resource_group := rg.getD PValue.null,
        pipeline_name := pn.getD PValue.null, expiration_time := et.getD PValue.null }

/-- PipelinePause.get_notification_web_params: extract web_path and
share_name. Its missing-parameter branch has the same trailing-comma
flaw as get_pipeline_params: the tuple msg makes func.HttpResponse raise
TypeError, which propagates out of the function. -/
def get_notification_web_params (req : HttpRequest) : Except String WebParams :=
  let wp := get_param req "web_path"
  let sn := get_param req "share_name"
  if wp = Option.none ∨ sn = Option.none then
    Except.error "TypeError"
  else
    Except.ok { web_path := wp.getD PValue.null, share_name := sn.getD PValue.null }

/-- json.dumps applied to the data payload extracted by get_param. The
payload is opaque to the subsystem; string escaping is not modelled. -/
def jsonDumps : Option PValue → String
  | Option.none => "null"
  | Option.some (PValue.str s) => "\"" ++ s ++ "\""
  | Option.some (PValue.int n) => toString n
  | Option.some (PValue.bool b) => if b then "true" else "false"
  | Option.some PValue.null => "null"

/-- PipelinePause.prepare_pipeline_data: build the table entity, copying
every supplied parameter verbatim and initializing acted_upon to 0. -/
def prepare_pipeline_data (partition_key : String) (token : String)
    (pipeline_params : PipelineParams) (notification_web_params : WebParams)
    (data : String) : Entity :=
  { PartitionKey := partition_key
    RowKey := token
    factory_name := pipeline_params.factory_name
    resource_group := pipeline_params.resource_group
    pipeline_name := pipeline_params.pipeline_name
    expiration_time := pipeline_params.expiration_time
    data := data
    acted_upon := PValue.int 0
    web_path := notification_web_params.web_path
    share_name := notification_web_params.share_name }

/-- json.dumps of the dictionary holding the freshly issued token. -/
def tokenJson (token : String) : String :=
  "\x7b\"token\": \"" ++ token ++ "\"\x7d"

/-- PipelinePause.main, the issue operation: gather the data payload and
the mandatory parameters, build the entity keyed by the freshly
generated URL-safe token (injected here), insert it stamped with the
current time, and return the token as JSON. The TypeError escaping a
missing-parameter branch is not an HttpError, so the
exceptions_as_response decorator re-raises it: the request terminates
with an unhandled exception and no response is returned. -/
def main (req : HttpRequest) (token : String) (now : Int) (store : TableStore) :
    RunOutcome × TableStore :=
  let data := get_param req "data"
  match get_pipeline_params req with
  | Except.error exc => (RunOutcome.unhandled exc, store)
  | Except.ok pipeline_params =>
    match get_notification_web_params req with
    | Except.error exc => (RunOutcome.unhandled exc, store)
    | Except.ok notification_web_params =>
      let pipeline_data :=
        prepare_pipeline_data "PauseData" token pipeline_params notification_web_params
          (jsonDumps data)
      let store1 := insert_entity store pipeline_data now
      (RunOutcome.resp
        { body := Body.str (tokenJson token), status_code := 200, mimetype := "text/plain" },
       store1)

end PipelinePause

/-
Interleaving model of two concurrent consume calls for the same token.
Each call is decomposed into the atomic interactions PipelineRestart.main
performs against the shared table, in source order: (read) get_entity;
(decide and trigger) evaluate acted_upon and expiry on the values read
and, when both pass, list the pipelines and create the run; (write)
update_entity setting acted_upon = 1; (respond) fetch and return the
confirmation page. Only the read and the write touch the shared store.
-/

/-- The private state of one in-flight consume call: its program
counter, the entity snapshot it read, how many times it created a
pipeline run, and its response when finished. -/
structure CallSt where
  pc : Nat
  snap : Option StoredEntity
  execs : Nat
  result : Option HttpResponse
deriving Repr

/-- The initial state of a consume call. -/
def CallSt.init : CallSt :=
  { pc := 0, snap := Option.none, execs := 0, result := Option.none }

/-- One atomic step of a consume call for token tok at time now against
the shared store, mirroring the branches of PipelineRestart.main. -/
def stepCall (env : Env) (now : Int) (tok : String) (store : TableStore) (c : CallSt) :
    TableStore × CallSt :=
  match c.pc with
  | 0 =>
      match lookupRow tok store with
      | Option.none =>
          (store,
           { c with
              pc := 4
              result := Option.some
                { body := Body.str missingResourceMsg, status_code := 500, mimetype := "text/plain" } })
      | Option.some pp => (store, { c with pc := 1, snap := Option.some pp })
  | 1 =>
      match c.snap with
      | Option.none => (store, { c with pc := 4 })
      | Option.some pp =>
        match pp.entity.expiration_time.asInt with
        | Option.none => (store, { c with pc := 4 })
        | Option.some ttl =>
          if !pp.entity.acted_upon.truthy && !check_if_expired pp.Timestamp ttl now then
            let rg := pp.entity.resource_group.pyStr
            let fn := pp.entity.factory_name.pyStr
            if pvalueInStrings pp.entity.pipeline_name (env.pipelines rg fn) then
              (store, { c with pc := 2, execs := c.execs + 1 })
            else
              (store,
               { c with
                  pc := 4
                  result := Option.some
                    { body := Body.str (pp.entity.pipeline_name.pyStr ++ " is not available in the data factory."),
                      status_code := 500, mimetype := "text/plain" } })
          else
            (store, { c with pc := 4, result := Option.some invalidTokenResponse })
  | 2 =>
      match c.snap with
      | Option.none => (store, { c with pc := 4 })
      | Option.some pp =>
          (update_entity store { pp.entity with acted_upon := PValue.int 1 } now,
           { c with pc := 3 })
  | 3 =>
      match c.snap with
      | Option.none => (store, { c with pc := 4 })
      | Option.some pp =>
          (store,
           { c with
              pc := 4
              result := Option.some
                { body := Body.str (env.shareFile pp.entity.share_name.pyStr pp.entity.web_path.pyStr),
                  status_code := 200, mimetype := "text/html" } })
  | _ => (store, c)

/-- The shared store together with the states of two concurrent consume
calls A and B. -/
structure TwoCalls where
  store : TableStore
  a : CallSt
  b : CallSt
deriving Repr

/-- Run a schedule over the two calls: true steps call A, false steps
call B. -/
def runSched (env : Env) (now : Int) (tok : String) : List Bool → TwoCalls → TwoCalls
  | [], s => s
  | true :: rest, s =>
      let r := stepCall env now tok s.store s.a
      runSched env now tok rest { store := r.1, a := r.2, b := s.b }
  | false :: rest, s =>
      let r := stepCall env now tok s.store s.b
      runSched env now tok rest { store := r.1, a := s.a, b := r.2 }

/-- Bind key k to value v in a request dictionary, replacing any prior
binding (Python dict assignment). -/
def setP (k : String) (v : PValue) (l : List (String × PValue)) : List (String × PValue) :=
  (k, v) :: l.filter (fun p => !(p.1 == k))

/-- Remove any binding for key k from a request dictionary. -/
def dropP (k : String) (l : List (String × PValue)) : List (String × PValue) :=
  l.filter (fun p => !(p.1 == k))

/-- Index of the first event satisfying p in a trace. -/
def firstIdx (p : Event → Bool) : List Event → Option Nat
  | [] => Option.none
  | ev :: rest => if p ev then Option.some 0 else (firstIdx p rest).map (fun i => i + 1)

/-- Concrete fixture: a pending deferred-action record with RowKey tok,
a one-hour expiration window and acted_upon still 0, as
prepare_pipeline_data builds it. -/
def entA : Entity :=
  { PartitionKey := "PauseData", RowKey := "tok", factory_name := PValue.str "F",
    resource_group := PValue.str "RG", pipeline_name := PValue.str "P",
    expiration_time := PValue.int 3600, data := "null", acted_upon := PValue.int 0,
    web_path := PValue.str "w", share_name := PValue.str "s" }

/-- Concrete fixture: an environment whose data factory contains the
target pipeline P and whose file share serves a fixed confirmation
page. -/
def envA : Env := { pipelines := fun _ _ => ["P"], shareFile := fun _ _ => "ok-page" }

/-- Concrete fixture: an environment whose data factory holds no
pipelines, so the trigger step of a consume call fails with the
HttpError raised by restart_pipeline. -/
def envNoPipe : Env := { pipelines := fun _ _ => [], shareFile := fun _ _ => "ok-page" }

/-- Concrete fixture: a table holding the single pending record,
inserted at time 100. -/
def storeA : TableStore := [("tok", { entity := entA, Timestamp := 100, etag := 0 })]

/-- The confirmation response a successful consume returns in envA. -/
def pageRespA : HttpResponse :=
  { body := Body.str "ok-page", status_code := 200, mimetype := "text/html" }

/-- A consume request carrying the token in its query string. -/
def reqTok : HttpRequest := { params := [("token", PValue.str "tok")], body := Option.none }

/-- An issue request supplying every mandatory parameter with a negative
expiration_time of -5 seconds. -/
def reqIssueNeg : HttpRequest :=
  { params := [("factory_name", PValue.str "F"), ("resource_group", PValue.str "RG"),
               ("pipeline_name", PValue.str "P"), ("expiration_time", PValue.int (-5)),
               ("web_path", PValue.str "w"), ("share_name", PValue.str "s")],
    body := Option.none }

/-- An issue request supplying every mandatory parameter with a one-hour
expiration_time. -/
def reqIssueOk : HttpRequest :=
  { params := [("factory_name", PValue.str "F"), ("resource_group", PValue.str "RG"),
               ("pipeline_name", PValue.str "P"), ("expiration_time", PValue.int 3600),
               ("web_path", PValue.str "w"), ("share_name", PValue.str "s")],
    body := Option.none }

/-- The table produced by issuing from reqIssueOk at time 100 with token
tok. -/
def storeIssued : TableStore := (PipelinePause.main reqIssueOk "tok" 100 []).2

/-- An issue request whose factory_name parameter is missing. -/
def reqNoFactory : HttpRequest :=
  { params := [("resource_group", PValue.str "RG"), ("pipeline_name", PValue.str "P"),
               ("expiration_time", PValue.int 3600), ("web_path", PValue.str "w"),
               ("share_name", PValue.str "s")],
    body := Option.none }

/-- An issue request whose expiration_time parameter is missing. -/
def reqNoExp : HttpRequest :=
  { params := [("factory_name", PValue.str "F"), ("resource_group", PValue.str "RG"),
               ("pipeline_name", PValue.str "P"), ("web_path", PValue.str "w"),
               ("share_name", PValue.str "s")],
    body := Option.none }

/-- A schedule interleaving two consume calls so that both read the
record before either writes it back. -/
def raceSched : List Bool := [true, false, true, false, true, false, true, false]

/-- A schedule running call A to completion before call B starts. -/
def seqSched : List Bool := [true, true, true, true, false, false, false, false]

/- Helper lemmas about the embedded operations. -/

theorem pyStr_str (s : String) : (PValue.str s).pyStr = s := rfl

theorem lookupRow_update (store : TableStore) (k : String) (e : Entity) (now : Int) :
    lookupRow k (update_entity store e now) =
      (lookupRow k store).map (fun pp =>
        if k == e.RowKey then { entity := e, Timestamp := now, etag := pp.etag + 1 } else pp) := by
  induction store with
  | nil => rfl
  | cons hd tl ih =>
      obtain ⟨k0, v⟩ := hd
      by_cases hk : k = k0
      · subst hk
        simp [update_entity, lookupRow]
      · have hk' : (k == k0) = false := by simp [hk]
        simp only [update_entity, List.map_cons, lookupRow, hk', Bool.false_eq_true, if_false]
        simpa [update_entity] using ih

theorem consume_notfound (env : Env) (store : TableStore) (now : Int) (req : HttpRequest)
    (tok : String)
    (hq : get_param req "token" = Option.some (PValue.str tok))
    (he : lookupRow tok store = Option.none) :
    PipelineRestart.main env store now req =
      (RunOutcome.resp
        { body := Body.str missingResourceMsg, status_code := 500, mimetype := "text/plain" },
       store, []) := by
  simp only [PipelineRestart.main, hq, findEntity, he]

theorem consume_reject (env : Env) (store : TableStore) (now : Int) (req : HttpRequest)
    (tok : String) (e : StoredEntity) (ttl : Int)
    (hq : get_param req "token" = Option.some (PValue.str tok))
    (he : lookupRow tok store = Option.some e)
    (hti : e.entity.expiration_time = PValue.int ttl)
    (hg : (!e.entity.acted_upon.truthy && !check_if_expired e.Timestamp ttl now) = false) :
    PipelineRestart.main env store now req =
      (RunOutcome.resp invalidTokenResponse, store, [Event.storeGet tok]) := by
  simp only [PipelineRestart.main, hq, findEntity, he, hti, PValue.asInt, hg, Bool.false_eq_true,
    if_false]

theorem consume_success (env : Env) (store : TableStore) (now : Int) (req : HttpRequest)
    (tok : String) (e : StoredEntity) (ttl : Int) (pn : String)
    (hq : get_param req "token" = Option.some (PValue.str tok))
    (he : lookupRow tok store = Option.some e)
    (hk : e.entity.RowKey = tok)
    (ha : e.entity.acted_upon.truthy = false)
    (hti : e.entity.expiration_time = PValue.int ttl)
    (hex : check_if_expired e.Timestamp ttl now = false)
    (hpn : e.entity.pipeline_name = PValue.str pn)
    (hav : (env.pipelines e.entity.resource_group.pyStr e.entity.factory_name.pyStr).contains pn
            = true) :
    PipelineRestart.main env store now req =
      (RunOutcome.resp
        { body := Body.str
            (env.shareFile e.entity.share_name.pyStr e.entity.web_path.pyStr),
          status_code := 200, mimetype := "text/html" },
       update_entity store { e.entity with acted_upon := PValue.int 1 } now,
       [Event.storeGet tok,
        Event.listPipelines e.entity.resource_group.pyStr e.entity.factory_name.pyStr,
        Event.createRun e.entity.resource_group.pyStr e.entity.factory_name.pyStr pn tok,
        Event.storeUpdate tok,
        Event.fetchPage e.entity.share_name.pyStr e.entity.web_path.pyStr]) := by
  simp only [PipelineRestart.main, hq, findEntity, he, hti, PValue.asInt, ha, hex, hpn,
    pvalueInStrings, hav, Bool.not_false, Bool.and_self, if_true, hk, pyStr_str,
    List.cons_append, List.nil_append]

theorem consume_unavailable (env : Env) (store : TableStore) (now : Int) (req : HttpRequest)
    (tok : String) (e : StoredEntity) (ttl : Int)
    (hq : get_param req "token" = Option.some (PValue.str tok))
    (he : lookupRow tok store = Option.some e)
    (ha : e.entity.acted_upon.truthy = false)
    (hti : e.entity.expiration_time = PValue.int ttl)
    (hex : check_if_expired e.Timestamp ttl now = false)
    (hav : pvalueInStrings e.entity.pipeline_name
            (env.pipelines e.entity.resource_group.pyStr e.entity.factory_name.pyStr) = false) :
    PipelineRestart.main env store now req =
      (RunOutcome.resp
        { body := Body.str (e.entity.pipeline_name.pyStr ++ " is not available in the data factory."),
          status_code := 500, mimetype := "text/plain" },
       store,
       [Event.storeGet tok,
        Event.listPipelines e.entity.resource_group.pyStr e.entity.factory_name.pyStr]) := by
  simp only [PipelineRestart.main, hq, findEntity, he, hti, PValue.asInt, ha, hex, hav,
    Bool.not_false, Bool.and_self, if_true, Bool.false_eq_true, if_false,
    List.cons_append, List.nil_append]

theorem consume_trace_shapes (env : Env) (store : TableStore) (now : Int) (req : HttpRequest) :
    (PipelineRestart.main env store now req).2.2 = [] ∨
    (∃ tok, (PipelineRestart.main env store now req).2.2 = [Event.storeGet tok]) ∨
    (∃ tok rg fn, (PipelineRestart.main env store now req).2.2 =
      [Event.storeGet tok, Event.listPipelines rg fn]) ∨
    (∃ tok rg fn pn k sn wp, (PipelineRestart.main env store now req).2.2 =
      [Event.storeGet tok, Event.listPipelines rg fn, Event.createRun rg fn pn tok,
       Event.storeUpdate k, Event.fetchPage sn wp]) := by
  simp only [PipelineRestart.main]
  split
  · left; rfl
  · split
    · right; left; exact ⟨_, rfl⟩
    · split
      · split
        · right; right; right
          exact ⟨_, _, _, _, _, _, _, rfl⟩
        · right; right; left
          exact ⟨_, _, _, rfl⟩
      · right; left; exact ⟨_, rfl⟩

theorem lookupP_setP (k : String) (v : PValue) (l : List (String × PValue)) :
    lookupP (setP k v l) k = Option.some v := by
  simp [setP, lookupP]

theorem lookupP_dropP (k : String) (l : List (String × PValue)) :
    lookupP (dropP k l) k = Option.none := by
  induction l with
  | nil => rfl
  | cons hd tl ih =>
      obtain ⟨k0, v⟩ := hd
      by_cases hk : k0 = k
      · simpa [dropP, hk] using ih
      · have hk' : (k0 == k) = false := by simp [hk]
        have hk'' : (k == k0) = false := by
          simp only [beq_eq_false_iff_ne, ne_eq]
          intro h
          exact hk h.symm
        simp only [dropP, List.filter_cons, hk', Bool.not_false, if_true, lookupP, hk'',
          Bool.false_eq_true, if_false]
        simpa [dropP] using ih

/-- C10: get_param returns None not only when the parameter is absent
from both the query string and the JSON body, but also whenever its
value is falsy; supplying a falsy value for a parameter is
indistinguishable from omitting it, at either location. -/
theorem get_param_falsy_equals_omitted (k : String) (v : PValue)
    (ps bs : List (String × PValue)) (bd : Option (List (String × PValue)))
    (hv : v.truthy = false) :
    get_param { params := setP k v ps, body := bd } k =
      get_param { params := dropP k ps, body := bd } k ∧
    get_param { params := ps, body := Option.some (setP k v bs) } k =
      get_param { params := ps, body := Option.some (dropP k bs) } k ∧
    get_param { params := setP k v ps, body := Option.some (setP k v bs) } k = Option.none := by
  refine ⟨?_, ?_, ?_⟩
  · simp [get_param, lookupP_setP, lookupP_dropP, pyFalsy, hv]
  · cases hp : pyFalsy (lookupP ps k) with
    | true =>
        simp only [get_param, hp, if_true, lookupP_setP, lookupP_dropP]
        simp [pyFalsy, hv]
    | false =>
        simp only [get_param, hp, Bool.false_eq_true, if_false]
  · simp [get_param, lookupP_setP, lookupP_dropP, pyFalsy, hv]

/-- C10 witness: a caller supplying expiration_time = 0 in the query
string and in the body is treated identically to omitting the field, and
get_param returns None. -/
theorem get_param_falsy_equals_omitted_witness :
    (PValue.int 0).truthy = false ∧
    (get_param { params := setP "expiration_time" (PValue.int 0) [("a", PValue.str "x")],
                 body := Option.none } "expiration_time" =
      get_param { params := dropP "expiration_time" [("a", PValue.str "x")],
                  body := Option.none } "expiration_time" ∧
     get_param { params := [("a", PValue.str "x")],
                 body := Option.some (setP "expiration_time" (PValue.int 0) []) } "expiration_time" =
      get_param { params := [("a", PValue.str "x")],
                  body := Option.some (dropP "expiration_time" []) } "expiration_time" ∧
     get_param { params := setP "expiration_time" (PValue.int 0) [("a", PValue.str "x")],
                 body := Option.some (setP "expiration_time" (PValue.int 0) []) } "expiration_time" =
      Option.none) :=
  ⟨by decide,
   get_param_falsy_equals_omitted "expiration_time" (PValue.int 0) [("a", PValue.str "x")] []
     Option.none (by decide)⟩

/-- C4: a consume call on a record whose expiration instant has passed
(current time strictly greater than the stored timestamp plus the
expiration window) returns the fixed rejection, leaves the store
unchanged and never triggers the pipeline run, regardless of whether the
record was ever acted upon. -/
theorem expired_token_rejected_without_trigger (env : Env) (store : TableStore) (now : Int)
    (req : HttpRequest) (tok : String) (e : StoredEntity) (ttl : Int)
    (hq : get_param req "token" = Option.some (PValue.str tok))
    (he : lookupRow tok store = Option.some e)
    (hti : e.entity.expiration_time = PValue.int ttl)
    (hexp : now > e.Timestamp + ttl) :
    PipelineRestart.main env store now req =
      (RunOutcome.resp invalidTokenResponse, store, [Event.storeGet tok]) ∧
    ((PipelineRestart.main env store now req).2.2.filter Event.isCreateRun) = [] := by
  have hex : check_if_expired e.Timestamp ttl now = true := by
    simp only [check_if_expired, decide_eq_true_eq]
    omega
  have hg : (!e.entity.acted_upon.truthy && !check_if_expired e.Timestamp ttl now) = false := by
    simp [hex]
  have h := consume_reject env store now req tok e ttl hq he hti hg
  refine ⟨h, ?_⟩
  rw [h]
  rfl

/-- C4 witness: consuming the pending record at time 4000, past its
expiration instant 100 + 3600, yields the rejection and no trigger. -/
theorem expired_token_rejected_without_trigger_witness :
    (4000 : Int) > 100 + 3600 ∧
    (PipelineRestart.main envA storeA 4000 reqTok =
      (RunOutcome.resp invalidTokenResponse, storeA, [Event.storeGet "tok"]) ∧
     ((PipelineRestart.main envA storeA 4000 reqTok).2.2.filter Event.isCreateRun) = []) :=
  ⟨by decide,
   expired_token_rejected_without_trigger envA storeA 4000 reqTok "tok"
     { entity := entA, Timestamp := 100, etag := 0 } 3600 (by decide) (by decide) (by decide)
     (by decide)⟩

/-- C3 counterexample: consuming an unknown token does not return the
literal message Invalid token. — the response carries the storage
layer's not-found message instead, so the three rejection reasons are
not collapsed into one external message. -/
theorem unknown_token_reveals_storage_message :
    (PipelineRestart.main envA [] 0 reqTok).1 =
      RunOutcome.resp
        { body := Body.str missingResourceMsg, status_code := 500, mimetype := "text/plain" } ∧
    Body.str missingResourceMsg ≠ Body.str "Invalid token." := by
  refine ⟨rfl, ?_⟩
  decide

/-- C3 amended: an expired or already-consumed rejection returns the
fixed status 500 with the literal message Invalid token., while an
unknown token returns status 500 with the storage layer's not-found
message, a different body. -/
theorem rejection_responses_characterized (env : Env) (store : TableStore) (now : Int)
    (req : HttpRequest) (tok : String)
    (hq : get_param req "token" = Option.some (PValue.str tok)) :
    (lookupRow tok store = Option.none →
      PipelineRestart.main env store now req =
        (RunOutcome.resp
          { body := Body.str missingResourceMsg, status_code := 500, mimetype := "text/plain" },
         store, [])) ∧
    (∀ e ttl, lookupRow tok store = Option.some e →
      e.entity.expiration_time = PValue.int ttl →
      (!e.entity.acted_upon.truthy && !check_if_expired e.Timestamp ttl now) = false →
      PipelineRestart.main env store now req =
        (RunOutcome.resp invalidTokenResponse, store, [Event.storeGet tok])) ∧
    invalidTokenResponse.status_code = 500 ∧
    Body.str missingResourceMsg ≠ invalidTokenResponse.body := by
  refine ⟨fun he => consume_notfound env store now req tok hq he,
          fun e ttl he hti hg => consume_reject env store now req tok e ttl hq he hti hg,
          rfl, by decide⟩

/-- C3 witness: the characterization applied to the concrete pending
store at a time past expiry. -/
theorem rejection_responses_characterized_witness :
    get_param reqTok "token" = Option.some (PValue.str "tok") ∧
    ((lookupRow "tok" storeA = Option.none →
      PipelineRestart.main envA storeA 4000 reqTok =
        (RunOutcome.resp
          { body := Body.str missingResourceMsg, status_code := 500, mimetype := "text/plain" },
         storeA, [])) ∧
     (∀ e ttl, lookupRow "tok" storeA = Option.some e →
      e.entity.expiration_time = PValue.int ttl →
      (!e.entity.acted_upon.truthy && !check_if_expired e.Timestamp ttl 4000) = false →
      PipelineRestart.main envA storeA 4000 reqTok =
        (RunOutcome.resp invalidTokenResponse, storeA, [Event.storeGet "tok"])) ∧
     invalidTokenResponse.status_code = 500 ∧
     Body.str missingResourceMsg ≠ invalidTokenResponse.body) :=
  ⟨by decide, rejection_responses_characterized envA storeA 4000 reqTok "tok" (by decide)⟩

/-- C6: consuming a pending, unexpired token twice in sequence yields
the confirmation page on the first call, with exactly one pipeline-run
trigger, and the fixed rejection on the second call, with no trigger and
no store change. -/
theorem sequential_consume_twice (env : Env) (store : TableStore) (t1 t2 : Int)
    (req : HttpRequest) (tok : String) (e : StoredEntity) (ttl : Int) (pn : String)
    (hq : get_param req "token" = Option.some (PValue.str tok))
    (he : lookupRow tok store = Option.some e)
    (hk : e.entity.RowKey = tok)
    (ha : e.entity.acted_upon = PValue.int 0)
    (hti : e.entity.expiration_time = PValue.int ttl)
    (hexp : ¬ t1 > e.Timestamp + ttl)
    (hpn : e.entity.pipeline_name = PValue.str pn)
    (hav : (env.pipelines e.entity.resource_group.pyStr e.entity.factory_name.pyStr).contains pn
            = true) :
    (PipelineRestart.main env store t1 req).1 =
      RunOutcome.resp
        { body := Body.str (env.shareFile e.entity.share_name.pyStr e.entity.web_path.pyStr),
          status_code := 200, mimetype := "text/html" } ∧
    ((PipelineRestart.main env store t1 req).2.2.filter Event.isCreateRun).length = 1 ∧
    PipelineRestart.main env (PipelineRestart.main env store t1 req).2.1 t2 req =
      (RunOutcome.resp invalidTokenResponse, (PipelineRestart.main env store t1 req).2.1,
       [Event.storeGet tok]) := by
  have ha' : e.entity.acted_upon.truthy = false := by simp [ha, PValue.truthy]
  have hex1 : check_if_expired e.Timestamp ttl t1 = false := by
    simp only [check_if_expired, decide_eq_false_iff_not]
    omega
  have h1 := consume_success env store t1 req tok e ttl pn hq he hk ha' hti hex1 hpn hav
  refine ⟨by rw [h1], by rw [h1]; rfl, ?_⟩
  have he2 : lookupRow tok (PipelineRestart.main env store t1 req).2.1 =
      Option.some
        { entity := { e.entity with acted_upon := PValue.int 1 }, Timestamp := t1,
          etag := e.etag + 1 } := by
    rw [h1]
    simp only [lookupRow_update, he, Option.map_some]
    simp [hk]
  have hg2 : (!({ e.entity with acted_upon := PValue.int 1 } : Entity).acted_upon.truthy &&
      !check_if_expired t1 ttl t2) = false := by
    simp [PValue.truthy]
  exact consume_reject env _ t2 req tok _ ttl hq he2 (by simp [hti]) hg2

/-- C6 witness: the pending record issued at time 100 with a one-hour
window, consumed at times 200 and 300. -/
theorem sequential_consume_twice_witness :
    ¬ (200 : Int) > 100 + 3600 ∧
    ((PipelineRestart.main envA storeA 200 reqTok).1 = RunOutcome.resp pageRespA ∧
     ((PipelineRestart.main envA storeA 200 reqTok).2.2.filter Event.isCreateRun).length = 1 ∧
     PipelineRestart.main envA (PipelineRestart.main envA storeA 200 reqTok).2.1 300 reqTok =
      (RunOutcome.resp invalidTokenResponse, (PipelineRestart.main envA storeA 200 reqTok).2.1,
       [Event.storeGet "tok"])) :=
  ⟨by decide,
   sequential_consume_twice envA storeA 200 300 reqTok "tok"
     { entity := entA, Timestamp := 100, etag := 0 } 3600 "P" (by decide) (by decide) (by decide)
     (by decide) (by decide) (by decide) (by decide) (by decide)⟩

/-- C5 counterexample: the creation timestamp backing the expiration
computation is not immutable. The record issued at time 100 carries
stored Timestamp 100, but after the consume call writes the record back
at time 200 the stored Timestamp is 200, so the expiration instant
timestamp + 3600 has moved. -/
theorem created_timestamp_changes_after_consume :
    ((lookupRow "tok" storeIssued).map (fun pp => pp.Timestamp)) = Option.some 100 ∧
    ((lookupRow "tok" storeIssued).map (fun pp => pp.entity.acted_upon)) =
      Option.some (PValue.int 0) ∧
    ((lookupRow "tok" (PipelineRestart.main envA storeIssued 200 reqTok).2.1).map
      (fun pp => pp.Timestamp)) = Option.some 200 ∧
    (100 : Int) + 3600 ≠ (200 : Int) + 3600 := by
  refine ⟨rfl, rfl, rfl, by decide⟩

/-- C5 amended: the stored timestamp equals the issuance time only until
the consume operation writes the record back; the successful write-back
resets it to the write time, so the expiration instant derived from it
moves whenever the write time differs from the issuance time. -/
theorem consume_writeback_refreshes_timestamp (env : Env) (store : TableStore) (t : Int)
    (req : HttpRequest) (tok : String) (e : StoredEntity) (ttl : Int) (pn : String)
    (hq : get_param req "token" = Option.some (PValue.str tok))
    (he : lookupRow tok store = Option.some e)
    (hk : e.entity.RowKey = tok)
    (ha : e.entity.acted_upon.truthy = false)
    (hti : e.entity.expiration_time = PValue.int ttl)
    (hex : check_if_expired e.Timestamp ttl t = false)
    (hpn : e.entity.pipeline_name = PValue.str pn)
    (hav : (env.pipelines e.entity.resource_group.pyStr e.entity.factory_name.pyStr).contains pn
            = true)
    (hne : e.Timestamp ≠ t) :
    ((lookupRow tok (PipelineRestart.main env store t req).2.1).map (fun pp => pp.Timestamp)) =
      Option.some t ∧
    e.Timestamp + ttl ≠ t + ttl := by
  have h1 := consume_success env store t req tok e ttl pn hq he hk ha hti hex hpn hav
  refine ⟨?_, by omega⟩
  rw [h1]
  simp only [lookupRow_update, he, Option.map_some]
  simp [hk]

/-- C5 witness: the concrete pending record issued at 100, consumed at
200. -/
theorem consume_writeback_refreshes_timestamp_witness :
    (100 : Int) ≠ 200 ∧
    (((lookupRow "tok" (PipelineRestart.main envA storeA 200 reqTok).2.1).map
       (fun pp => pp.Timestamp)) = Option.some 200 ∧
     (100 : Int) + 3600 ≠ (200 : Int) + 3600) :=
  ⟨by decide,
   consume_writeback_refreshes_timestamp envA storeA 200 reqTok "tok"
     { entity := entA, Timestamp := 100, etag := 0 } 3600 "P" (by decide) (by decide) (by decide)
     (by decide) (by decide) (by decide) (by decide) (by decide) (by decide)⟩

/-- C9 counterexample: a successful consume call does not modify only
the consumed flag and the concurrency version — the stored Timestamp
also changes, from the issuance time 100 to the consume time 200, while
every enumerated payload field is preserved. -/
theorem consume_changes_timestamp_too :
    lookupRow "tok" storeA = Option.some { entity := entA, Timestamp := 100, etag := 0 } ∧
    lookupRow "tok" (PipelineRestart.main envA storeA 200 reqTok).2.1 =
      Option.some
        { entity := { entA with acted_upon := PValue.int 1 }, Timestamp := 200, etag := 1 } ∧
    (200 : Int) ≠ (100 : Int) := by
  refine ⟨rfl, rfl, by decide⟩

/-- C9 amended: a successful consume call rewrites the stored record to
exactly the read entity with acted_upon set to 1, with the version
bumped and the service Timestamp reset to the write time; every other
field (keys, factory_name, resource_group, pipeline_name,
expiration_time, data, web_path, share_name) is unchanged. -/
theorem consume_frame_exact (env : Env) (store : TableStore) (t : Int)
    (req : HttpRequest) (tok : String) (e : StoredEntity) (ttl : Int) (pn : String)
    (hq : get_param req "token" = Option.some (PValue.str tok))
    (he : lookupRow tok store = Option.some e)
    (hk : e.entity.RowKey = tok)
    (ha : e.entity.acted_upon.truthy = false)
    (hti : e.entity.expiration_time = PValue.int ttl)
    (hex : check_if_expired e.Timestamp ttl t = false)
    (hpn : e.entity.pipeline_name = PValue.str pn)
    (hav : (env.pipelines e.entity.resource_group.pyStr e.entity.factory_name.pyStr).contains pn
            = true) :
    lookupRow tok (PipelineRestart.main env store t req).2.1 =
      Option.some
        { entity := { e.entity with acted_upon := PValue.int 1 }, Timestamp := t,
          etag := e.etag + 1 } := by
  have h1 := consume_success env store t req tok e ttl pn hq he hk ha hti hex hpn hav
  rw [h1]
  simp only [lookupRow_update, he, Option.map_some]
  simp [hk]

/-- C9 witness: the frame of the concrete successful consume at time
200. -/
theorem consume_frame_exact_witness :
    lookupRow "tok" storeA =
      Option.some { entity := entA, Timestamp := 100, etag := 0 } ∧
    lookupRow "tok" (PipelineRestart.main envA storeA 200 reqTok).2.1 =
      Option.some
        { entity := { entA with acted_upon := PValue.int 1 }, Timestamp := 200, etag := 1 } :=
  ⟨by decide,
   consume_frame_exact envA storeA 200 reqTok "tok"
     { entity := entA, Timestamp := 100, etag := 0 } 3600 "P" (by decide) (by decide) (by decide)
     (by decide) (by decide) (by decide) (by decide) (by decide)⟩

/-- C2 counterexample: in a successful consume execution the pipeline
trigger (createRun, trace index 2) happens before the store write that
commits the consumed flag (storeUpdate, trace index 3) — the ordering is
execute-then-mark, not mark-then-execute. Moreover, when the trigger
step fails (pipeline absent from the factory) the store is unchanged and
resubmitting the same token reaches the trigger again, so a failed
execution is retryable. -/
theorem trigger_precedes_mark_and_failure_is_retryable :
    firstIdx Event.isCreateRun (PipelineRestart.main envA storeA 200 reqTok).2.2 =
      Option.some 2 ∧
    firstIdx Event.isStoreUpdate (PipelineRestart.main envA storeA 200 reqTok).2.2 =
      Option.some 3 ∧
    ¬ (3 : Nat) < 2 ∧
    (PipelineRestart.main envNoPipe storeA 200 reqTok).2.1 = storeA ∧
    ((PipelineRestart.main envNoPipe storeA 200 reqTok).2.2.filter Event.isStoreUpdate) = [] ∧
    ((PipelineRestart.main envA
        (PipelineRestart.main envNoPipe storeA 200 reqTok).2.1 300 reqTok).2.2.filter
      Event.isCreateRun).length = 1 := by
  refine ⟨rfl, rfl, by decide, rfl, rfl, rfl⟩

/-- C2 amended: the consumed write never precedes the trigger: in every
consume execution whose trace contains the storeUpdate write, the
createRun trigger occurs at the earlier index 2 and the write at index
3; and an execution whose trigger step fails (pipeline not available)
leaves the store unchanged and performs no consumed write, so the token
remains consumable. -/
theorem mark_never_precedes_trigger (env : Env) (store : TableStore) (now : Int)
    (req : HttpRequest) :
    (((PipelineRestart.main env store now req).2.2.any Event.isStoreUpdate) = true →
      firstIdx Event.isCreateRun (PipelineRestart.main env store now req).2.2 = Option.some 2 ∧
      firstIdx Event.isStoreUpdate (PipelineRestart.main env store now req).2.2 =
        Option.some 3) ∧
    (∀ tok e ttl, get_param req "token" = Option.some (PValue.str tok) →
      lookupRow tok store = Option.some e →
      e.entity.acted_upon.truthy = false →
      e.entity.expiration_time = PValue.int ttl →
      check_if_expired e.Timestamp ttl now = false →
      pvalueInStrings e.entity.pipeline_name
        (env.pipelines e.entity.resource_group.pyStr e.entity.factory_name.pyStr) = false →
      (PipelineRestart.main env store now req).2.1 = store ∧
      ((PipelineRestart.main env store now req).2.2.any Event.isStoreUpdate) = false) := by
  constructor
  · intro hupd
    rcases consume_trace_shapes env store now req with h | ⟨tok, h⟩ | ⟨tok, rg, fn, h⟩ |
      ⟨tok, rg, fn, pn, k, sn, wp, h⟩
    · rw [h] at hupd
      simp at hupd
    · rw [h] at hupd
      simp [Event.isStoreUpdate] at hupd
    · rw [h] at hupd
      simp [Event.isStoreUpdate] at hupd
    · rw [h]
      constructor
      · simp [firstIdx, Event.isCreateRun]
      · simp [firstIdx, Event.isStoreUpdate, Event.isCreateRun]
  · intro tok e ttl hq he ha hti hex hav
    have h := consume_unavailable env store now req tok e ttl hq he ha hti hex hav
    rw [h]
    exact ⟨rfl, by simp [Event.isStoreUpdate]⟩

/-- C2 amended witness: the ordering fact and the failure-retry fact of
the concrete executions at time 200. -/
theorem mark_never_precedes_trigger_witness :
    (((PipelineRestart.main envA storeA 200 reqTok).2.2.any Event.isStoreUpdate) = true ∧
     (firstIdx Event.isCreateRun (PipelineRestart.main envA storeA 200 reqTok).2.2 =
        Option.some 2 ∧
      firstIdx Event.isStoreUpdate (PipelineRestart.main envA storeA 200 reqTok).2.2 =
        Option.some 3)) ∧
    ((PipelineRestart.main envNoPipe storeA 200 reqTok).2.1 = storeA ∧
     ((PipelineRestart.main envNoPipe storeA 200 reqTok).2.2.any Event.isStoreUpdate) = false) :=
  ⟨⟨rfl, (mark_never_precedes_trigger envA storeA 200 reqTok).1 rfl⟩,
   (mark_never_precedes_trigger envNoPipe storeA 200 reqTok).2 "tok"
     { entity := entA, Timestamp := 100, etag := 0 } 3600 (by decide) (by decide) (by decide)
     (by decide) (by decide) (by decide)⟩

/-- C1 counterexample: two concurrent consume calls for the same token,
interleaved so that both read the record before either writes it back,
both observe the successful transition: both return the confirmation
page and the pipeline trigger runs twice. The consumed flag is written
with an unconditional update, not a compare-and-set conditioned on the
stored version. -/
theorem concurrent_consumes_both_execute :
    (runSched envA 200 "tok" raceSched
      { store := storeA, a := CallSt.init, b := CallSt.init }).a.execs = 1 ∧
    (runSched envA 200 "tok" raceSched
      { store := storeA, a := CallSt.init, b := CallSt.init }).b.execs = 1 ∧
    (runSched envA 200 "tok" raceSched
      { store := storeA, a := CallSt.init, b := CallSt.init }).a.result =
      Option.some pageRespA ∧
    (runSched envA 200 "tok" raceSched
      { store := storeA, a := CallSt.init, b := CallSt.init }).b.result =
      Option.some pageRespA := by
  refine ⟨rfl, rfl, rfl, rfl⟩

/-- C1 amended: only when one consume call completes its store write
before the other call reads does the loser observe the rejection; under
the fully sequential schedule exactly one call executes the trigger and
the other is rejected. Interleavings where both calls read before
either writes (the counterexample) execute the trigger twice, because
the write is unconditional rather than an atomic compare-and-set. -/
theorem sequential_schedule_single_winner :
    (runSched envA 200 "tok" seqSched
      { store := storeA, a := CallSt.init, b := CallSt.init }).a.execs = 1 ∧
    (runSched envA 200 "tok" seqSched
      { store := storeA, a := CallSt.init, b := CallSt.init }).b.execs = 0 ∧
    (runSched envA 200 "tok" seqSched
      { store := storeA, a := CallSt.init, b := CallSt.init }).a.result =
      Option.some pageRespA ∧
    (runSched envA 200 "tok" seqSched
      { store := storeA, a := CallSt.init, b := CallSt.init }).b.result =
      Option.some invalidTokenResponse := by
  refine ⟨rfl, rfl, rfl, rfl⟩

/-- C7 counterexample: a missing required parameter does not produce a
ValidationError naming the field, surfaced with a client-error status:
issue terminates with an unhandled TypeError and returns no response at
all. The source binds msg to a 1-tuple (trailing comma) and
func.HttpResponse raises TypeError on the non-string body before the
intended HttpError exists; the decorator catches only HttpError, so the
exception propagates. The outcome is identical for a missing
factory_name and a missing expiration_time, so nothing names the
missing field. -/
theorem missing_param_unhandled_typeerror :
    (PipelinePause.main reqNoFactory "tok" 0 []).1 = RunOutcome.unhandled "TypeError" ∧
    (PipelinePause.main reqNoExp "tok" 0 []).1 = RunOutcome.unhandled "TypeError" ∧
    (∀ r : HttpResponse, RunOutcome.unhandled "TypeError" ≠ RunOutcome.resp r) := by
  refine ⟨rfl, rfl, ?_⟩
  intro r h
  cases h

/-- C7 amended: whenever any of the four required action parameters
resolves to None, issue fails with an unhandled TypeError — the fixed
rejection message listing all four parameter names is accidentally a
Python 1-tuple, which func.HttpResponse refuses as a body before the
intended HttpError can be raised — so no response (in particular no
client-error response naming the missing field) is produced, and the
store is unchanged. -/
theorem issue_missing_param_raises_typeerror (req : HttpRequest) (tok : String)
    (now : Int) (store : TableStore)
    (h : get_param req "factory_name" = Option.none ∨
         get_param req "resource_group" = Option.none ∨
         get_param req "pipeline_name" = Option.none ∨
         get_param req "expiration_time" = Option.none) :
    PipelinePause.main req tok now store = (RunOutcome.unhandled "TypeError", store) := by
  simp only [PipelinePause.main, PipelinePause.get_pipeline_params]
  rw [if_pos h]

/-- C7 amended witness: the request missing expiration_time. -/
theorem issue_missing_param_raises_typeerror_witness :
    (get_param reqNoExp "factory_name" = Option.none ∨
     get_param reqNoExp "resource_group" = Option.none ∨
     get_param reqNoExp "pipeline_name" = Option.none ∨
     get_param reqNoExp "expiration_time" = Option.none) ∧
    PipelinePause.main reqNoExp "tok" 0 [] = (RunOutcome.unhandled "TypeError", []) :=
  ⟨Or.inr (Or.inr (Or.inr (by decide))),
   issue_missing_param_raises_typeerror reqNoExp "tok" 0 []
     (Or.inr (Or.inr (Or.inr (by decide))))⟩

/-- C8 counterexample: an issue request supplying expiration_time = -5,
which is not a positive integer, is accepted: the token is returned and
the record is persisted with expiration_time -5. -/
theorem issue_accepts_negative_ttl :
    (PipelinePause.main reqIssueNeg "tok" 100 []).1 =
      RunOutcome.resp
        { body := Body.str (PipelinePause.tokenJson "tok"), status_code := 200,
          mimetype := "text/plain" } ∧
    ((lookupRow "tok" (PipelinePause.main reqIssueNeg "tok" 100 []).2).map
      (fun pp => pp.entity.expiration_time)) = Option.some (PValue.int (-5)) ∧
    ¬ (0 : Int) < -5 := by
  refine ⟨rfl, rfl, by decide⟩

/-- C8 amended: issue validates only that the four parameters resolve to
some value (and get_param maps falsy values, such as 0, to None); beyond
that the resolved expiration_time is persisted verbatim, with no
positivity or integrality check. -/
theorem issue_persists_ttl_unvalidated (req : HttpRequest) (tok : String) (now : Int)
    (store : TableStore) (pp : PipelinePause.PipelineParams) (wp : PipelinePause.WebParams)
    (hp : PipelinePause.get_pipeline_params req = Except.ok pp)
    (hw : PipelinePause.get_notification_web_params req = Except.ok wp) :
    PipelinePause.main req tok now store =
      (RunOutcome.resp
        { body := Body.str (PipelinePause.tokenJson tok), status_code := 200,
          mimetype := "text/plain" },
       insert_entity store
         (PipelinePause.prepare_pipeline_data "PauseData" tok pp wp
           (PipelinePause.jsonDumps (get_param req "data"))) now) ∧
    (PipelinePause.prepare_pipeline_data "PauseData" tok pp wp
      (PipelinePause.jsonDumps (get_param req "data"))).expiration_time =
      pp.expiration_time := by
  refine ⟨?_, rfl⟩
  simp only [PipelinePause.main, hp, hw]

/-- C8 amended witness: the concrete issue request carrying
expiration_time = -5 is persisted verbatim. -/
theorem issue_persists_ttl_unvalidated_witness :
    PipelinePause.get_pipeline_params reqIssueNeg =
      Except.ok
        { factory_name := PValue.str "F", resource_group := PValue.str "RG",
          pipeline_name := PValue.str "P", expiration_time := PValue.int (-5) } ∧
    (PipelinePause.main reqIssueNeg "tok" 100 [] =
      (RunOutcome.resp
        { body := Body.str (PipelinePause.tokenJson "tok"), status_code := 200,
          mimetype := "text/plain" },
       insert_entity []
         (PipelinePause.prepare_pipeline_data "PauseData" "tok"
           { factory_name := PValue.str "F", resource_group := PValue.str "RG",
             pipeline_name := PValue.str "P", expiration_time := PValue.int (-5) }
           { web_path := PValue.str "w", share_name := PValue.str "s" }
           (PipelinePause.jsonDumps (get_param reqIssueNeg "data"))) 100) ∧
     (PipelinePause.prepare_pipeline_data "PauseData" "tok"
       { factory_name := PValue.str "F", resource_group := PValue.str "RG",
         pipeline_name := PValue.str "P", expiration_time := PValue.int (-5) }
       { web_path := PValue.str "w", share_name := PValue.str "s" }
       (PipelinePause.jsonDumps (get_param reqIssueNeg "data"))).expiration_time =
      PValue.int (-5)) :=
  ⟨rfl,
   issue_persists_ttl_unvalidated reqIssueNeg "tok" 100 []
     { factory_name := PValue.str "F", resource_group := PValue.str "RG",
       pipeline_name := PValue.str "P", expiration_time := PValue.int (-5) }
     { web_path := PValue.str "w", share_name := PValue.str "s" } rfl rfl⟩
